import Mathlib

/-!
# CSPy header rule-evaluation engine: a shallow embedding

This file embeds the header-analysis core of the CSPy scanner (a Rust
program) into Lean 4 and proves properties of the embedded definitions.

Modelling conventions:
* `reqwest::header::HeaderMap` becomes an association list with
  case-insensitive name lookup (`getHeader` / `getAllHeaders` /
  `containsKey`), mirroring `HeaderMap::get`, `get_all` and `contains_key`.
* A `HeaderValue` either decodes to text (`HeaderValue.text`) or fails to
  decode (`HeaderValue.invalid`); `HeaderValue.toStr` mirrors
  `HeaderValue::to_str` returning an `Option`.
* Rust `str::contains` (substring search) is `strContains`;
  `str::parse::<i64>` / `::<i32>` are `parseI64` / `parseI32`, including
  the integer-width range check on which Rust's parser fails.
* Machine integers are `Int` with explicit range guards; `i64 / 86400`
  (truncation toward zero) is `Int.div`.
-/

namespace CSPy

inductive HeaderValue where
  | text (s : String)
  | invalid
  deriving DecidableEq

def HeaderValue.toStr : HeaderValue → Option String
  | .text s => some s
  | .invalid => none

abbrev Headers := List (String × HeaderValue)

/-- Substring search over character lists (Rust `str::contains` with a
string pattern). -/
def containsSub (l pat : List Char) : Bool :=
  if pat.isPrefixOf l then true
  else
    match l with
    | [] => false
    | _ :: t => containsSub t pat

/-- Rust `str::contains(pattern)` for string patterns. -/
def strContains (s pat : String) : Bool :=
  containsSub s.data pat.data

/-!
String primitives. The Rust code uses `str` methods; these are their
structurally recursive counterparts over `String.data`, so that every
check evaluates by kernel reduction. On the ASCII header values the
checks handle they agree with Rust's Unicode-aware versions.
-/

/-- The whitespace class shared by Rust `char::is_whitespace` (ASCII
part) and the regex crate's `\s`. -/
def wsChar (c : Char) : Bool :=
  c == ' ' || c == '\t' || c == '\n' || c == '\r' || c == '\x0b' || c == '\x0c'

/-- Rust `str::trim`. -/
def trimChars (l : List Char) : List Char :=
  ((l.dropWhile wsChar).reverse.dropWhile wsChar).reverse

/-- Rust `str::trim` on strings. -/
def trimStr (s : String) : String :=
  String.mk (trimChars s.data)

/-- Rust `str::to_lowercase` (ASCII). -/
def lowerStr (s : String) : String :=
  String.mk (s.data.map Char.toLower)

/-- Rust `str::to_uppercase` (ASCII). -/
def upperStr (s : String) : String :=
  String.mk (s.data.map Char.toUpper)

/-- Rust `str::starts_with` with a string pattern. -/
def startsWithStr (s pre : String) : Bool :=
  pre.data.isPrefixOf s.data

/-- Rust `str::ends_with` with a string pattern. -/
def endsWithStr (s suf : String) : Bool :=
  suf.data.isSuffixOf s.data

/-- Rust `str::split` with a `char` separator (keeps empty segments,
never returns an empty list). -/
def splitOnChar (sep : Char) : List Char → List (List Char)
  | [] => [[]]
  | c :: t =>
    let r := splitOnChar sep t
    if c == sep then [] :: r
    else
      match r with
      | h :: rest => (c :: h) :: rest
      | [] => [[c]]

/-- Rust `str::split` with a `char` separator, on strings. -/
def splitChar (sep : Char) (s : String) : List String :=
  (splitOnChar sep s.data).map String.mk

/-- Rust `str::contains` with a `char` pattern. -/
def charContains (s : String) (c : Char) : Bool :=
  s.data.contains c

/-- Rust `str::strip_prefix`-style removal of the first `n` characters. -/
def dropStr (s : String) (n : Nat) : String :=
  String.mk (s.data.drop n)

/-- `HeaderMap::get`: first value stored under a case-insensitive name. -/
def getHeader (hs : Headers) (name : String) : Option HeaderValue :=
  (hs.find? (fun p => lowerStr p.1 == lowerStr name)).map (fun p => p.2)

/-- `HeaderMap::get_all`: every value stored under a case-insensitive name,
in original order. -/
def getAllHeaders (hs : Headers) (name : String) : List HeaderValue :=
  (hs.filter (fun p => lowerStr p.1 == lowerStr name)).map (fun p => p.2)

/-- `HeaderMap::contains_key`. -/
def containsKey (hs : Headers) (name : String) : Bool :=
  (getHeader hs name).isSome

/-- `Severity` from `checks/mod.rs` (declaration order preserved). -/
inductive Severity where
  | Critical
  | High
  | Medium
  | Low
  | Info
  deriving DecidableEq

/-- `Severity::as_str`. -/
def Severity.as_str : Severity → String
  | .Critical => "CRITICAL"
  | .High => "HIGH"
  | .Medium => "MEDIUM"
  | .Low => "LOW"
  | .Info => "INFO"

/-- The structural pattern match used by `ScanResult::count_by_severity`
(a `matches!` over the five aligned constructor pairs). -/
def sevEq : Severity → Severity → Bool
  | .Critical, .Critical => true
  | .High, .High => true
  | .Medium, .Medium => true
  | .Low, .Low => true
  | .Info, .Info => true
  | _, _ => false

/-- `SecurityIssue` from `checks/mod.rs`. -/
structure SecurityIssue where
  category : String
  severity : Severity
  message : String
  recommendation : String
  deriving DecidableEq

/-- Digit run to number (used by the integer parsers). -/
def digitsToNat (ds : List Char) : Nat :=
  ds.foldl (fun acc c => acc * 10 + (c.toNat - 48)) 0

/-- Rust `str::parse` for a signed integer type whose values lie in
`[lo, hi]`: an optional sign, then one or more ASCII digits, failing on
anything else and on overflow. -/
def parseIntIn (s : String) (lo hi : Int) : Option Int :=
  let signDigits : Int × List Char :=
    match s.data with
    | '+' :: rest => (1, rest)
    | '-' :: rest => (-1, rest)
    | rest => (1, rest)
  let sign := signDigits.1
  let ds := signDigits.2
  if ds.isEmpty then none
  else if ds.all Char.isDigit then
    let v : Int := sign * (digitsToNat ds : Nat)
    if lo ≤ v ∧ v ≤ hi then some v else none
  else none

/-- Rust `str::parse::<i64>()`. -/
def parseI64 (s : String) : Option Int :=
  parseIntIn s (-(2 ^ 63)) (2 ^ 63 - 1)

/-- Rust `str::parse::<i32>()`. -/
def parseI32 (s : String) : Option Int :=
  parseIntIn s (-(2 ^ 31)) (2 ^ 31 - 1)

namespace Csp

/-! ## `checks/csp.rs` -/

/-- Matching of the tail `\s+([^;]+)` of the directive pattern against the
text following an occurrence of the directive literal, with the regex
crate's greedy backtracking, returning the trimmed capture on success.
When at least one whitespace character is followed by a non-`;` character
the capture is the greedy non-`;` run starting there; when the whitespace
run is followed by `;` or the end of the string, `\s+` backtracks and
`[^;]+` can still consume trailing whitespace provided the run has length
at least two, capturing only whitespace, which trims to `""`. -/
def matchAfter (rest : List Char) : Option String :=
  let k := (rest.takeWhile wsChar).length
  if k = 0 then none
  else
    match rest.drop k with
    | c :: cs =>
      if c == ';' then (if 2 ≤ k then some "" else none)
      else some (String.mk (trimChars ((c :: cs).takeWhile (fun x => !(x == ';')))))
    | [] => if 2 ≤ k then some "" else none

/-- Leftmost-first search for the pattern `directive\s+([^;]+)`
(`Regex::captures` in `extract_directive`): scan positions left to right;
at each occurrence of the directive literal try the tail, else continue. -/
def regexFind : List Char → List Char → Option String
  | [], _ => none
  | c :: t, dir =>
    if dir.isPrefixOf (c :: t) then
      match matchAfter ((c :: t).drop dir.length) with
      | some cap => some cap
      | none => regexFind t dir
    else regexFind t dir

/-- `extract_directive` from `checks/csp.rs`: regex search for
`{directive}\s+([^;]+)` in the CSP value, returning capture 1 trimmed. -/
def extract_directive (csp directive : String) : Option String :=
  regexFind csp.data directive.data

def missingCspIssue : SecurityIssue :=
  ⟨"CSP", .High, "Missing Content-Security-Policy header",
   "Implement CSP to prevent XSS and other injection attacks"⟩

def invalidEncodingIssue : SecurityIssue :=
  ⟨"CSP", .Medium, "Content-Security-Policy header has invalid encoding",
   "Ensure CSP header contains valid UTF-8 characters"⟩

def unsafeInlineIssue : SecurityIssue :=
  ⟨"CSP", .High, "CSP allows 'unsafe-inline'",
   "Remove 'unsafe-inline' and use nonces or hashes for inline scripts/styles"⟩

def unsafeEvalIssue : SecurityIssue :=
  ⟨"CSP", .High, "CSP allows 'unsafe-eval'",
   "Remove 'unsafe-eval' to prevent dynamic code execution"⟩

def scriptWildcardIssue : SecurityIssue :=
  ⟨"CSP", .Critical, "CSP script-src allows all sources (*)",
   "Restrict script-src to specific trusted domains only"⟩

def scriptDataIssue : SecurityIssue :=
  ⟨"CSP", .High, "CSP script-src allows 'data:' URIs",
   "Remove 'data:' from script-src to prevent base64 encoded script execution"⟩

def scriptHttpsIssue : SecurityIssue :=
  ⟨"CSP", .Medium, "CSP script-src allows all HTTPS sources",
   "Restrict to specific HTTPS domains instead of allowing all HTTPS"⟩

def defaultWildcardIssue : SecurityIssue :=
  ⟨"CSP", .High, "CSP default-src allows all sources (*)",
   "Restrict default-src to specific trusted domains"⟩

def defaultMissingIssue : SecurityIssue :=
  ⟨"CSP", .Medium, "CSP missing 'default-src' directive",
   "Add 'default-src' as a fallback for other directives"⟩

def objectNotNoneIssue : SecurityIssue :=
  ⟨"CSP", .Medium, "CSP object-src is not set to 'none'",
   "Set object-src to 'none' to prevent Flash/plugin-based attacks"⟩

def objectMissingIssue : SecurityIssue :=
  ⟨"CSP", .Low, "CSP missing 'object-src' directive",
   "Add 'object-src 'none'' to prevent plugin execution"⟩

def baseUriIssue : SecurityIssue :=
  ⟨"CSP", .Medium, "CSP missing 'base-uri' directive",
   "Add 'base-uri 'self'' to prevent base tag injection"⟩

def upgradeIssue : SecurityIssue :=
  ⟨"CSP", .Info, "CSP missing 'upgrade-insecure-requests' directive",
   "Consider adding 'upgrade-insecure-requests' to upgrade HTTP to HTTPS"⟩

/-- `checks::csp::check`. The early `return issues` paths (absent header,
undecodable value) become the two constant result lists; afterwards the
pushes are concatenated in source order. -/
def check (hs : Headers) : List SecurityIssue :=
  let cspHeader :=
    match getHeader hs "content-security-policy" with
    | some v => some v
    | none => getHeader hs "x-content-security-policy"
  match cspHeader with
  | none => [missingCspIssue]
  | some value =>
    match value.toStr with
    | none => [invalidEncodingIssue]
    | some csp =>
      (if strContains csp "'unsafe-inline'" then [unsafeInlineIssue] else [])
      ++ (if strContains csp "'unsafe-eval'" then [unsafeEvalIssue] else [])
      ++ (match extract_directive csp "script-src" with
          | some script_src =>
            (if strContains script_src " * " || endsWithStr script_src " *"
                || script_src == "*" then [scriptWildcardIssue] else [])
            ++ (if strContains script_src "data:" then [scriptDataIssue] else [])
            ++ (if strContains script_src "https:"
                   && !(strContains script_src "'unsafe-inline'") then
                  [scriptHttpsIssue]
                else [])
          | none => [])
      ++ (match extract_directive csp "default-src" with
          | some default_src =>
            if strContains default_src " * " || endsWithStr default_src " *"
               || default_src == "*" then [defaultWildcardIssue] else []
          | none => [defaultMissingIssue])
      ++ (match extract_directive csp "object-src" with
          | some object_src =>
            if !(object_src == "'none'") then [objectNotNoneIssue] else []
          | none => [objectMissingIssue])
      ++ (if !(strContains csp "base-uri") then [baseUriIssue] else [])
      ++ (if !(strContains csp "upgrade-insecure-requests")
             && !(containsKey hs "strict-transport-security") then
            [upgradeIssue]
          else [])

end Csp

namespace Cors

/-! ## `checks/cors.rs` -/

def wildcardCredIssue : SecurityIssue :=
  ⟨"CORS", .Critical, "CORS allows all origins (*) with credentials",
   "NEVER use wildcard (*) with Access-Control-Allow-Credentials: true. This allows any website to make authenticated requests."⟩

def wildcardIssue : SecurityIssue :=
  ⟨"CORS", .Medium, "CORS allows all origins (*)",
   "Restrict Access-Control-Allow-Origin to specific trusted domains"⟩

def nullOriginIssue : SecurityIssue :=
  ⟨"CORS", .High, "CORS allows 'null' origin",
   "Remove 'null' from allowed origins - it can be exploited via sandboxed iframes"⟩

def httpOriginIssue : SecurityIssue :=
  ⟨"CORS", .Medium, "CORS allows HTTP origin (unencrypted)",
   "Only allow HTTPS origins to prevent MitM attacks"⟩

def orphanedIssue : SecurityIssue :=
  ⟨"CORS", .Low, "CORS headers present but Access-Control-Allow-Origin is missing",
   "Either remove all CORS headers or properly configure Access-Control-Allow-Origin"⟩

def allMethodsIssue : SecurityIssue :=
  ⟨"CORS", .High, "CORS allows all HTTP methods (*)",
   "Explicitly specify only the required HTTP methods"⟩

def dangerousMethodsIssue : SecurityIssue :=
  ⟨"CORS", .Info, "CORS allows potentially dangerous methods (DELETE/PUT)",
   "Ensure these methods are required and properly secured"⟩

def allHeadersIssue : SecurityIssue :=
  ⟨"CORS", .Medium, "CORS allows all headers (*)",
   "Explicitly specify only the required headers"⟩

def longCacheIssue : SecurityIssue :=
  ⟨"CORS", .Low, "CORS preflight cache time is very long",
   "Consider reducing Access-Control-Max-Age to allow faster policy updates"⟩

/-- The `Some(origin_value)` arm of the match in `cors::check`, after the
origin value decoded to `origin_str`: the wildcard block (with the nested
credentials test), the null-origin test and the `http://` test. -/
def originPart (origin_str : String) (credentials : Option HeaderValue) :
    List SecurityIssue :=
  (if origin_str == "*" then
     (match credentials with
      | some cred =>
        match cred.toStr with
        | some cred_str =>
          if lowerStr cred_str == "true" then [wildcardCredIssue] else []
        | none => []
      | none => [])
     ++ [wildcardIssue]
   else [])
  ++ (if origin_str == "null" then [nullOriginIssue] else [])
  ++ (if startsWithStr origin_str "http://" then [httpOriginIssue] else [])

/-- The `None` arm of the match in `cors::check`: flag orphaned CORS
headers. -/
def noOriginPart (hs : Headers) : List SecurityIssue :=
  if containsKey hs "access-control-allow-methods"
     || containsKey hs "access-control-allow-headers" then [orphanedIssue]
  else []

/-- The `Access-Control-Allow-Methods` block of `cors::check`. -/
def methodsPart (hs : Headers) : List SecurityIssue :=
  match getHeader hs "access-control-allow-methods" with
  | some methods =>
    match methods.toStr with
    | some methods_str =>
      let methods_upper := upperStr methods_str
      (if strContains methods_upper "*" then [allMethodsIssue] else [])
      ++ (if strContains methods_upper "DELETE" || strContains methods_upper "PUT" then
            [dangerousMethodsIssue]
          else [])
    | none => []
  | none => []

/-- The `Access-Control-Allow-Headers` block of `cors::check`. -/
def headersPart (hs : Headers) : List SecurityIssue :=
  match getHeader hs "access-control-allow-headers" with
  | some allowed =>
    match allowed.toStr with
    | some headers_str =>
      if strContains headers_str "*" then [allHeadersIssue] else []
    | none => []
  | none => []

/-- The `Access-Control-Max-Age` block of `cors::check` (`parse::<i32>`). -/
def maxAgePart (hs : Headers) : List SecurityIssue :=
  match getHeader hs "access-control-max-age" with
  | some max_age =>
    match max_age.toStr with
    | some age_str =>
      match parseI32 age_str with
      | some age => if age > 86400 then [longCacheIssue] else []
      | none => []
    | none => []
  | none => []

/-- The three trailing blocks of `cors::check`, which run whenever the
origin value did not fail to decode. -/
def tailPart (hs : Headers) : List SecurityIssue :=
  methodsPart hs ++ headersPart hs ++ maxAgePart hs

/-- `checks::cors::check`. A decode failure of the origin value is the
early `return issues` with nothing gathered, skipping the trailing
blocks as well. -/
def check (hs : Headers) : List SecurityIssue :=
  match getHeader hs "access-control-allow-origin" with
  | some origin_value =>
    match origin_value.toStr with
    | none => []
    | some origin_str =>
      originPart origin_str (getHeader hs "access-control-allow-credentials")
        ++ tailPart hs
  | none => noOriginPart hs ++ tailPart hs

end Cors

namespace Hsts

/-! ## `src/checks/hsts.rs` -/

def SIX_MONTHS_SECONDS : Int := 15768000

def ONE_YEAR_SECONDS : Int := 31536000

def missingHstsIssue : SecurityIssue :=
  ⟨"HSTS", .Medium, "Missing Strict-Transport-Security header",
   "Add 'Strict-Transport-Security: max-age=31536000; includeSubDomains; preload' to enforce HTTPS"⟩

def tooShortIssue (age : Int) : SecurityIssue :=
  ⟨"HSTS", .Medium,
   "HSTS max-age is too short (" ++ toString age ++ " seconds, ~"
     ++ toString (Int.tdiv age 86400) ++ " days)",
   "Increase max-age to at least 6 months (15768000 seconds) or preferably 1 year"⟩

def lessThanYearIssue : SecurityIssue :=
  ⟨"HSTS", .Info, "HSTS max-age is less than 1 year",
   "Consider increasing to 1 year (31536000) for stronger protection"⟩

def missingMaxAgeIssue : SecurityIssue :=
  ⟨"HSTS", .High, "HSTS header missing max-age directive",
   "Add max-age directive: max-age=31536000"⟩

def noSubDomainsIssue : SecurityIssue :=
  ⟨"HSTS", .Low, "HSTS missing 'includeSubDomains' directive",
   "Add 'includeSubDomains' to protect all subdomains with HSTS"⟩

def noPreloadIssue : SecurityIssue :=
  ⟨"HSTS", .Info, "HSTS missing 'preload' directive",
   "Consider adding 'preload' and submitting to hstspreload.org for browser preload lists"⟩

/-- The loop body of `extract_max_age`: the first `;`-segment whose
trimmed text case-insensitively starts with `max-age` and contains a `=`
decides the result (`return value.trim().parse().ok()`); a matching
segment without `=` lets the loop continue. -/
def extract_max_age_go : List String → Option Int
  | [] => none
  | part :: rest =>
    let trimmed := trimStr part
    if startsWithStr (lowerStr trimmed) "max-age" then
      match (splitChar '=' trimmed).get? 1 with
      | some value => parseI64 (trimStr value)
      | none => extract_max_age_go rest
    else extract_max_age_go rest

/-- `extract_max_age` from `src/checks/hsts.rs`. -/
def extract_max_age (hsts : String) : Option Int :=
  extract_max_age_go (splitChar ';' hsts)

/-- `checks::hsts::check`. Absence of the header and a decode failure are
the early returns; afterwards the pushes concatenate in source order. -/
def check (hs : Headers) : List SecurityIssue :=
  match getHeader hs "strict-transport-security" with
  | none => [missingHstsIssue]
  | some value =>
    match value.toStr with
    | none => []
    | some hsts =>
      (match extract_max_age hsts with
       | some age =>
         (if age < SIX_MONTHS_SECONDS then [tooShortIssue age] else [])
         ++ (if age < ONE_YEAR_SECONDS then [lessThanYearIssue] else [])
       | none => [missingMaxAgeIssue])
      ++ (if !(strContains (lowerStr hsts) "includesubdomains") then
            [noSubDomainsIssue]
          else [])
      ++ (if !(strContains (lowerStr hsts) "preload") then [noPreloadIssue] else [])

end Hsts

namespace Xframe

/-! ## `src/checks/xframe.rs` -/

def allowAllIssue : SecurityIssue :=
  ⟨"X-Frame-Options", .High, "X-Frame-Options is set to ALLOWALL",
   "Change to DENY or SAMEORIGIN to prevent clickjacking"⟩

def allowFromIssue : SecurityIssue :=
  ⟨"X-Frame-Options", .Medium, "X-Frame-Options uses deprecated ALLOW-FROM directive",
   "Replace with CSP frame-ancestors directive for better browser support"⟩

def bothSetIssue : SecurityIssue :=
  ⟨"X-Frame-Options", .Info, "Both X-Frame-Options and CSP frame-ancestors are set",
   "CSP frame-ancestors takes precedence in modern browsers. Consider removing X-Frame-Options for simplicity."⟩

def missingXfoIssue : SecurityIssue :=
  ⟨"X-Frame-Options", .Medium, "Missing X-Frame-Options header",
   "Add 'X-Frame-Options: DENY' or use CSP 'frame-ancestors 'none'' to prevent clickjacking"⟩

def faWildcardIssue : SecurityIssue :=
  ⟨"CSP frame-ancestors", .High, "CSP frame-ancestors allows all sources (*)",
   "Restrict frame-ancestors to specific trusted domains or use 'none'"⟩

def faHttpIssue : SecurityIssue :=
  ⟨"CSP frame-ancestors", .Medium, "CSP frame-ancestors allows HTTP (unencrypted) sources",
   "Only allow HTTPS sources in frame-ancestors"⟩

/-- `extract_frame_ancestors` from `src/checks/xframe.rs`: first
`;`-segment whose trimmed text starts with `frame-ancestors`, with the
directive name stripped and the remainder trimmed. -/
def extract_frame_ancestors (csp : String) : Option String :=
  (((splitChar ';' csp).map (fun d => trimStr d)).find?
      (fun t => startsWithStr t "frame-ancestors")).map
    (fun t => trimStr (dropStr t "frame-ancestors".length))

/-- The trailing frame-ancestors analysis block of `xframe::check`. -/
def faPart (csp : Option HeaderValue) : List SecurityIssue :=
  match csp with
  | some csp_value =>
    match csp_value.toStr with
    | some csp_str =>
      match extract_frame_ancestors csp_str with
      | some frame_ancestors =>
        (if charContains frame_ancestors '*' then [faWildcardIssue] else [])
        ++ (if strContains frame_ancestors "http://" then [faHttpIssue] else [])
      | none => []
    | none => []
  | none => []

/-- `checks::xframe::check`. A decode failure of the X-Frame-Options value
is the early `return issues` with nothing gathered, skipping the
frame-ancestors analysis as well. -/
def check (hs : Headers) : List SecurityIssue :=
  let xframe := getHeader hs "x-frame-options"
  let csp := getHeader hs "content-security-policy"
  let has_frame_ancestors :=
    match csp with
    | some v =>
      match v.toStr with
      | some s => strContains s "frame-ancestors"
      | none => false
    | none => false
  match xframe with
  | some value =>
    match value.toStr with
    | none => []
    | some s =>
      let xframe_str := upperStr s
      (if strContains xframe_str "ALLOWALL" || strContains xframe_str "ALLOW-ALL" then
         [allowAllIssue]
       else [])
      ++ (if strContains xframe_str "ALLOW-FROM" then [allowFromIssue] else [])
      ++ (if has_frame_ancestors then [bothSetIssue] else [])
      ++ faPart csp
  | none =>
    (if !has_frame_ancestors then [missingXfoIssue] else []) ++ faPart csp

end Xframe

namespace Cookies

/-! ## `src/checks/cookies.rs` -/

/-- `extract_cookie_name`: text before the first `=`, trimmed
(`split('=').next()` on a non-empty split never fails). -/
def extract_cookie_name (cookie : String) : String :=
  trimStr ((splitChar '=' cookie).headD "unknown")

/-- `is_sensitive_cookie`. -/
def is_sensitive_cookie (name : String) : Bool :=
  let name_lower := lowerStr name
  strContains name_lower "session"
    || strContains name_lower "auth"
    || strContains name_lower "token"
    || strContains name_lower "csrf"
    || strContains name_lower "xsrf"
    || startsWithStr name_lower "__secure-"
    || startsWithStr name_lower "__host-"

inductive SameSite where
  | none
  | lax
  | strict
  | missing
  deriving DecidableEq

/-- `extract_samesite`: case-insensitive substring tests in source order. -/
def extract_samesite (cookie : String) : SameSite :=
  let cookie_lower := lowerStr cookie
  if strContains cookie_lower "samesite=none" then .none
  else if strContains cookie_lower "samesite=lax" then .lax
  else if strContains cookie_lower "samesite=strict" then .strict
  else .missing

/-- The loop body of the cookie `extract_max_age`: the first `;`-segment
whose trimmed, lowercased text starts with `max-age` and contains a `=`
decides the result; a matching segment without `=` lets the loop
continue. -/
def extract_max_age_go : List String → Option Int
  | [] => Option.none
  | part :: rest =>
    let trimmed := lowerStr (trimStr part)
    if startsWithStr trimmed "max-age" then
      match (splitChar '=' trimmed).get? 1 with
      | some value => parseI64 (trimStr value)
      | Option.none => extract_max_age_go rest
    else extract_max_age_go rest

/-- `extract_max_age` from `src/checks/cookies.rs`. -/
def extract_max_age (cookie : String) : Option Int :=
  extract_max_age_go (splitChar ';' cookie)

def missingSecureIssue (name : String) : SecurityIssue :=
  ⟨"Cookie Security", .Medium, "Cookie '" ++ name ++ "' missing Secure flag",
   "Add 'Secure' flag to ensure cookie is only sent over HTTPS"⟩

def missingHttpOnlySensitiveIssue (name : String) : SecurityIssue :=
  ⟨"Cookie Security", .Medium, "Cookie '" ++ name ++ "' missing HttpOnly flag",
   "Add 'HttpOnly' flag to prevent JavaScript access and XSS attacks"⟩

def missingHttpOnlyIssue (name : String) : SecurityIssue :=
  ⟨"Cookie Security", .Low, "Cookie '" ++ name ++ "' missing HttpOnly flag",
   "Consider adding 'HttpOnly' flag unless JavaScript access is required"⟩

def sameSiteNoneIssue (name : String) : SecurityIssue :=
  ⟨"Cookie Security", .Medium, "Cookie '" ++ name ++ "' has SameSite=None",
   "SameSite=None requires Secure flag and allows cross-site requests. Use Lax or Strict if possible."⟩

def sameSiteMissingIssue (name : String) : SecurityIssue :=
  ⟨"Cookie Security", .Low, "Cookie '" ++ name ++ "' missing SameSite attribute",
   "Add 'SameSite=Lax' or 'SameSite=Strict' to prevent CSRF attacks"⟩

def longExpirationIssue (name : String) : SecurityIssue :=
  ⟨"Cookie Security", .Info, "Cookie '" ++ name ++ "' has very long expiration (>1 year)",
   "Consider shorter expiration times for sensitive cookies"⟩

def prefixNoSecureIssue (name : String) : SecurityIssue :=
  ⟨"Cookie Security", .High, "Cookie '" ++ name ++ "' uses security prefix but missing Secure flag",
   "Cookies with __Secure- or __Host- prefix MUST have Secure flag"⟩

def hostDomainIssue (name : String) : SecurityIssue :=
  ⟨"Cookie Security", .High, "Cookie '" ++ name ++ "' uses __Host- prefix but has Domain attribute",
   "__Host- cookies must NOT have Domain attribute"⟩

def hostPathIssue (name : String) : SecurityIssue :=
  ⟨"Cookie Security", .High, "Cookie '" ++ name ++ "' uses __Host- prefix but Path is not /",
   "__Host- cookies must have Path=/"⟩

/-- The loop body of `cookies::check` for a single decoded `Set-Cookie`
value, pushes concatenated in source order. -/
def checkCookie (cookie : String) : List SecurityIssue :=
  let cookie_name := extract_cookie_name cookie
  (if !(strContains (lowerStr cookie) "secure") then [missingSecureIssue cookie_name]
   else [])
  ++ (if !(strContains (lowerStr cookie) "httponly") then
        (if is_sensitive_cookie cookie_name then
           [missingHttpOnlySensitiveIssue cookie_name]
         else [missingHttpOnlyIssue cookie_name])
      else [])
  ++ (match extract_samesite cookie with
      | .none => [sameSiteNoneIssue cookie_name]
      | .lax => []
      | .strict => []
      | .missing => [sameSiteMissingIssue cookie_name])
  ++ (match extract_max_age cookie with
      | some max_age =>
        if max_age > 31536000 then [longExpirationIssue cookie_name] else []
      | Option.none => [])
  ++ (if startsWithStr cookie_name "__Secure-" || startsWithStr cookie_name "__Host-" then
        (if !(strContains (lowerStr cookie) "secure") then
           [prefixNoSecureIssue cookie_name]
         else [])
        ++ (if startsWithStr cookie_name "__Host-" then
              (if strContains (lowerStr cookie) "domain=" then
                 [hostDomainIssue cookie_name]
               else [])
              ++ (if !(strContains (lowerStr cookie) "path=/") then
                    [hostPathIssue cookie_name]
                  else [])
            else [])
      else [])

/-- `checks::cookies::check`: every decodable `Set-Cookie` value is
analyzed independently (`filter_map(to_str.ok)` drops undecodable ones);
zero cookies give zero findings. -/
def check (hs : Headers) : List SecurityIssue :=
  let cookies := (getAllHeaders hs "set-cookie").filterMap HeaderValue.toStr
  (cookies.map checkCookie).flatten

end Cookies

namespace Scanner

/-! ## `scanner.rs`: the additional-headers check and the dispatcher -/

def noContentTypeOptionsIssue : SecurityIssue :=
  ⟨"X-Content-Type-Options", .Low, "Missing X-Content-Type-Options header",
   "Add 'X-Content-Type-Options: nosniff' to prevent MIME sniffing"⟩

def xssDisabledIssue : SecurityIssue :=
  ⟨"X-XSS-Protection", .Low, "X-XSS-Protection is disabled",
   "Consider removing this header (deprecated) and using CSP instead"⟩

def noReferrerPolicyIssue : SecurityIssue :=
  ⟨"Referrer-Policy", .Low, "Missing Referrer-Policy header",
   "Add 'Referrer-Policy: strict-origin-when-cross-origin' or stricter"⟩

def noPermissionsPolicyIssue : SecurityIssue :=
  ⟨"Permissions-Policy", .Info, "Missing Permissions-Policy header",
   "Consider adding Permissions-Policy to control browser features"⟩

/-- `Scanner::check_additional_headers`. -/
def check_additional_headers (hs : Headers) : List SecurityIssue :=
  (if !(containsKey hs "x-content-type-options") then [noContentTypeOptionsIssue]
   else [])
  ++ (match getHeader hs "x-xss-protection" with
      | some xss =>
        match xss.toStr with
        | some value => if strContains value "0" then [xssDisabledIssue] else []
        | none => []
      | none => [])
  ++ (if !(containsKey hs "referrer-policy") then [noReferrerPolicyIssue] else [])
  ++ (if !(containsKey hs "permissions-policy") then [noPermissionsPolicyIssue]
      else [])

/-- The issue-gathering part of `Scanner::scan`: the six check modules in
the fixed source order, concatenated with `issues.extend`. -/
def scanIssues (hs : Headers) : List SecurityIssue :=
  Csp.check hs ++ Cors.check hs ++ Hsts.check hs ++ Xframe.check hs
    ++ Cookies.check hs ++ check_additional_headers hs

end Scanner

/-! ## `ScanResult` from `checks/mod.rs` -/

structure ScanResult where
  url : String
  status : Nat
  issues : List SecurityIssue

/-- `ScanResult::count_by_severity`: number of issues whose severity
pattern-matches the given one. -/
def ScanResult.count_by_severity (r : ScanResult) (severity : Severity) : Nat :=
  (r.issues.filter (fun i => sevEq i.severity severity)).length

/-- `ScanResult::has_critical`. -/
def ScanResult.has_critical (r : ScanResult) : Bool :=
  r.issues.any (fun i => sevEq i.severity .Critical)

/-- Modelled from the spec: the source declares `Severity` (checks/mod.rs
lines 9-16) without implementing any order; the spec (sections 3 and 9)
describes it as a ranked enumeration totally ordered
`Critical > High > Medium > Low > Info`. The rank assigns higher numbers
to more severe levels. -/
def sevRank : Severity → Nat
  | .Critical => 4
  | .High => 3
  | .Medium => 2
  | .Low => 1
  | .Info => 0

/-- Modelled from the spec: the order relation `a ≤ b` induced by
`sevRank` (`Info` least, `Critical` greatest). -/
def sevLe (a b : Severity) : Bool :=
  Nat.ble (sevRank a) (sevRank b)

/-- Modelled from the spec: the strict order `a < b` induced by
`sevRank`. -/
def sevLt (a b : Severity) : Bool :=
  Nat.blt (sevRank a) (sevRank b)

/-!
## Properties

One theorem per claim about the embedded checks, with helper lemmas
shared between them.
-/

lemma sevEq_eq_beq (a b : Severity) : sevEq a b = (a == b) := by
  cases a <;> cases b <;> rfl

lemma count_sev_total (l : List SecurityIssue) :
    (l.filter (fun i => sevEq i.severity .Critical)).length
      + (l.filter (fun i => sevEq i.severity .High)).length
      + (l.filter (fun i => sevEq i.severity .Medium)).length
      + (l.filter (fun i => sevEq i.severity .Low)).length
      + (l.filter (fun i => sevEq i.severity .Info)).length = l.length := by
  simp only [sevEq_eq_beq]
  induction l with
  | nil => rfl
  | cons i t ih =>
    obtain ⟨cat, sev, msg, rec⟩ := i
    cases sev <;> simp [List.filter_cons] <;> omega

lemma cors_methodsPart_not_critical (hs : Headers) :
    (Cors.methodsPart hs).any (fun i => sevEq i.severity .Critical) = false := by
  unfold Cors.methodsPart
  cases getHeader hs "access-control-allow-methods" with
  | none => rfl
  | some v =>
    cases v with
    | invalid => rfl
    | text s =>
      simp only [HeaderValue.toStr]
      split <;> split <;> decide

lemma cors_headersPart_not_critical (hs : Headers) :
    (Cors.headersPart hs).any (fun i => sevEq i.severity .Critical) = false := by
  unfold Cors.headersPart
  cases getHeader hs "access-control-allow-headers" with
  | none => rfl
  | some v =>
    cases v with
    | invalid => rfl
    | text s =>
      simp only [HeaderValue.toStr]
      split <;> decide

lemma cors_maxAgePart_not_critical (hs : Headers) :
    (Cors.maxAgePart hs).any (fun i => sevEq i.severity .Critical) = false := by
  unfold Cors.maxAgePart
  cases getHeader hs "access-control-max-age" with
  | none => rfl
  | some v =>
    cases v with
    | invalid => rfl
    | text s =>
      simp only [HeaderValue.toStr]
      repeat' split
      all_goals decide

lemma cors_tailPart_not_critical (hs : Headers) :
    (Cors.tailPart hs).any (fun i => sevEq i.severity .Critical) = false := by
  unfold Cors.tailPart
  simp [List.any_append, cors_methodsPart_not_critical,
    cors_headersPart_not_critical, cors_maxAgePart_not_critical]

/-- C1: if `Access-Control-Allow-Origin` is `*` and
`Access-Control-Allow-Credentials` case-insensitively equals `true`, the
CORS check reports both a Critical and a Medium finding; if the
credentials header is absent (origin still `*`), it reports a Medium
finding and no Critical finding. -/
theorem C1_cors_wildcard :
    (∀ (hs : Headers) (cred : String),
        getHeader hs "access-control-allow-origin" = some (.text "*") →
        getHeader hs "access-control-allow-credentials" = some (.text cred) →
        lowerStr cred = "true" →
        (Cors.check hs).any (fun i => sevEq i.severity .Critical) = true
          ∧ (Cors.check hs).any (fun i => sevEq i.severity .Medium) = true)
    ∧ (∀ hs : Headers,
        getHeader hs "access-control-allow-origin" = some (.text "*") →
        getHeader hs "access-control-allow-credentials" = none →
        (Cors.check hs).any (fun i => sevEq i.severity .Medium) = true
          ∧ (Cors.check hs).any (fun i => sevEq i.severity .Critical) = false) := by
  constructor
  · intro hs cred h1 h2 h3
    have hnull : (("*" : String) == "null") = false := by decide
    have hhttp : startsWithStr "*" "http://" = false := by decide
    constructor <;>
      simp [Cors.check, h1, h2, h3, Cors.originPart, HeaderValue.toStr,
        List.any_append, sevEq, Cors.wildcardCredIssue, Cors.wildcardIssue,
        hnull, hhttp]
  · intro hs h1 h2
    simp only [Cors.check, h1, h2, HeaderValue.toStr, List.any_append]
    constructor
    · have hm : (Cors.originPart "*" none).any
          (fun i => sevEq i.severity .Medium) = true := by decide
      rw [hm, Bool.true_or]
    · rw [cors_tailPart_not_critical hs, Bool.or_false]
      decide

/-- C1, witnessed at the concrete header sets
`Access-Control-Allow-Origin: *` with and without
`Access-Control-Allow-Credentials: TRUE`. -/
theorem C1_witness :
    (getHeader [("access-control-allow-origin", HeaderValue.text "*"),
          ("access-control-allow-credentials", HeaderValue.text "TRUE")]
        "access-control-allow-origin" = some (.text "*")
      ∧ lowerStr "TRUE" = "true"
      ∧ (Cors.check [("access-control-allow-origin", HeaderValue.text "*"),
            ("access-control-allow-credentials", HeaderValue.text "TRUE")]).any
          (fun i => sevEq i.severity .Critical) = true)
    ∧ (Cors.check [("access-control-allow-origin", HeaderValue.text "*")]).any
          (fun i => sevEq i.severity .Medium) = true
    ∧ (Cors.check [("access-control-allow-origin", HeaderValue.text "*")]).any
          (fun i => sevEq i.severity .Critical) = false :=
  ⟨⟨by decide, by decide,
    (C1_cors_wildcard.1
        [("access-control-allow-origin", HeaderValue.text "*"),
         ("access-control-allow-credentials", HeaderValue.text "TRUE")]
        "TRUE" (by decide) (by decide) (by decide)).1⟩,
   (C1_cors_wildcard.2 [("access-control-allow-origin", HeaderValue.text "*")]
      (by decide) (by decide)).1,
   (C1_cors_wildcard.2 [("access-control-allow-origin", HeaderValue.text "*")]
      (by decide) (by decide)).2⟩

/-- C2: a header set with neither `Content-Security-Policy` nor
`X-Content-Security-Policy` makes the CSP check return exactly the one
missing-CSP finding, whose severity is High. -/
theorem C2_missing_csp_single_high (hs : Headers)
    (h1 : getHeader hs "content-security-policy" = none)
    (h2 : getHeader hs "x-content-security-policy" = none) :
    Csp.check hs = [Csp.missingCspIssue] := by
  simp [Csp.check, h1, h2]

/-- C2, witnessed at the empty header set. -/
theorem C2_witness :
    getHeader [] "content-security-policy" = none
    ∧ getHeader [] "x-content-security-policy" = none
    ∧ Csp.check [] = [Csp.missingCspIssue] :=
  ⟨by decide, by decide,
    C2_missing_csp_single_high [] (by decide) (by decide)⟩

/-- C3: the claimed split-on-`;` prefix-matched extraction would treat
`max-age-extended` as a non-match for `max-age`, but the HSTS extractor
accepts it: the lookup is a bare `starts_with` on the trimmed segment, so
the longer token satisfies it and `99` is returned. -/
theorem C3_hsts_extractor_matches_longer_token :
    Hsts.extract_max_age "max-age-extended=99" = some 99 := by decide

/-- C4, counterexample: `script-src * 'self'` has a standalone `*` as its
first source token, yet the CSP check reports no Critical finding, because
the code only tests for `" * "`, a trailing `" *"`, or the exact value
`"*"`. -/
theorem C4_counterexample_leading_wildcard :
    Csp.extract_directive "script-src * 'self'" "script-src" = some "* 'self'"
    ∧ (Csp.check [("content-security-policy",
          HeaderValue.text "script-src * 'self'")]).all
        (fun i => !(sevEq i.severity .Critical)) = true :=
  ⟨by decide, by decide⟩

/-- C4, amended: when the `script-src` directive value equals `*`,
contains `" * "`, or ends with `" *"` — a standalone `*` token that is not
the first of several tokens — the CSP check reports a Critical finding. -/
theorem C4_amended_wildcard_critical (hs : Headers) (csp v : String)
    (h1 : getHeader hs "content-security-policy" = some (.text csp))
    (h2 : Csp.extract_directive csp "script-src" = some v)
    (h3 : strContains v " * " = true ∨ endsWithStr v " *" = true ∨ v = "*") :
    (Csp.check hs).any (fun i => sevEq i.severity .Critical) = true := by
  have hc : (strContains v " * " || endsWithStr v " *" || v == "*") = true := by
    rcases h3 with h | h | h <;> simp [h]
  simp [Csp.check, h1, h2, hc, HeaderValue.toStr, List.any_append, sevEq,
    Csp.scriptWildcardIssue]

/-- C4, witnessed at `script-src 'self' *` (trailing standalone `*`). -/
theorem C4_witness :
    (getHeader [("content-security-policy",
          HeaderValue.text "script-src 'self' *")] "content-security-policy"
        = some (.text "script-src 'self' *")
      ∧ Csp.extract_directive "script-src 'self' *" "script-src"
          = some "'self' *"
      ∧ endsWithStr "'self' *" " *" = true)
    ∧ (Csp.check [("content-security-policy",
          HeaderValue.text "script-src 'self' *")]).any
        (fun i => sevEq i.severity .Critical) = true :=
  ⟨⟨by decide, by decide, by decide⟩,
    C4_amended_wildcard_critical
      [("content-security-policy", HeaderValue.text "script-src 'self' *")]
      "script-src 'self' *" "'self' *" (by decide) (by decide)
      (Or.inr (Or.inl (by decide)))⟩

/-- C5: a `__Secure-`-prefixed cookie without the `Secure` attribute must
get a High finding, but the check's substring test for `secure` is
satisfied by the cookie's own name, so `__Secure-id=1` yields only a
Medium (HttpOnly) and a Low (SameSite) finding and no High finding at
all. -/
theorem C5_secure_prefix_rule_never_fires :
    Cookies.check [("set-cookie", HeaderValue.text "__Secure-id=1")]
        = [Cookies.missingHttpOnlySensitiveIssue "__Secure-id",
           Cookies.sameSiteMissingIssue "__Secure-id"]
    ∧ (Cookies.check [("set-cookie", HeaderValue.text "__Secure-id=1")]).all
        (fun i => !(sevEq i.severity .High)) = true :=
  ⟨by decide, by decide⟩

/-- C6: `Strict-Transport-Security: max-age=3600` yields a Medium
"too short" finding and an Info "less than 1 year" finding, while
`max-age=31536000; includeSubDomains; preload` yields zero HSTS
findings. -/
theorem C6_hsts_examples :
    (Hsts.check [("strict-transport-security",
        HeaderValue.text "max-age=3600")]).any
        (fun i => sevEq i.severity .Medium && strContains i.message "too short")
      = true
    ∧ (Hsts.check [("strict-transport-security",
        HeaderValue.text "max-age=3600")]).any
        (fun i => sevEq i.severity .Info
          && strContains i.message "less than 1 year") = true
    ∧ Hsts.check [("strict-transport-security",
        HeaderValue.text "max-age=31536000; includeSubDomains; preload")] = [] :=
  ⟨by decide, by decide, by decide⟩

/-- C7, counterexample: a `Content-Security-Policy` value that fails to
decode makes the CSP check return a (fresh) Medium invalid-encoding
finding rather than only the findings gathered before the failure, which
would be none. -/
theorem C7_counterexample_csp_invalid_encoding :
    Csp.check [("content-security-policy", HeaderValue.invalid)]
        = [Csp.invalidEncodingIssue]
    ∧ Csp.check [("content-security-policy", HeaderValue.invalid)] ≠ [] :=
  ⟨by decide, by decide⟩

/-- C7, amended: on a header value that fails to decode, the CORS, HSTS
and framing checks return exactly the findings gathered before the
failure (none), while the CSP check returns the single Medium
invalid-encoding finding; no error propagates and the dispatcher always
runs all six checks over the same snapshot. -/
theorem C7_amended_decode_failures (hs : Headers) :
    (getHeader hs "content-security-policy" = some .invalid →
        Csp.check hs = [Csp.invalidEncodingIssue])
    ∧ (getHeader hs "access-control-allow-origin" = some .invalid →
        Cors.check hs = [])
    ∧ (getHeader hs "strict-transport-security" = some .invalid →
        Hsts.check hs = [])
    ∧ (getHeader hs "x-frame-options" = some .invalid →
        Xframe.check hs = [])
    ∧ Scanner.scanIssues hs
        = Csp.check hs ++ Cors.check hs ++ Hsts.check hs ++ Xframe.check hs
            ++ Cookies.check hs ++ Scanner.check_additional_headers hs := by
  refine ⟨fun h => ?_, fun h => ?_, fun h => ?_, fun h => ?_, rfl⟩
  · simp [Csp.check, h, HeaderValue.toStr]
  · simp [Cors.check, h, HeaderValue.toStr]
  · simp [Hsts.check, h, HeaderValue.toStr]
  · simp [Xframe.check, h, HeaderValue.toStr]

/-- C7, witnessed at a header set whose CSP and CORS origin values both
fail to decode. -/
theorem C7_witness :
    Csp.check [("content-security-policy", HeaderValue.invalid),
        ("access-control-allow-origin", HeaderValue.invalid)]
        = [Csp.invalidEncodingIssue]
    ∧ Cors.check [("content-security-policy", HeaderValue.invalid),
        ("access-control-allow-origin", HeaderValue.invalid)] = [] :=
  ⟨(C7_amended_decode_failures
      [("content-security-policy", HeaderValue.invalid),
       ("access-control-allow-origin", HeaderValue.invalid)]).1 (by decide),
   (C7_amended_decode_failures
      [("content-security-policy", HeaderValue.invalid),
       ("access-control-allow-origin", HeaderValue.invalid)]).2.1 (by decide)⟩

/-- C8: for every scan result, `count_by_severity` summed over the five
severities equals the number of issues. -/
theorem C8_severity_counts_partition (r : ScanResult) :
    r.count_by_severity .Critical + r.count_by_severity .High
      + r.count_by_severity .Medium + r.count_by_severity .Low
      + r.count_by_severity .Info = r.issues.length := by
  simp only [ScanResult.count_by_severity]
  exact count_sev_total r.issues

/-- C9: severity is totally ordered with
`Critical > High > Medium > Low > Info`; the order is reflexive and total,
and the source's pattern-match comparison relates every severity to
itself. -/
theorem C9_severity_order :
    (sevLt .High .Critical = true ∧ sevLt .Medium .High = true
      ∧ sevLt .Low .Medium = true ∧ sevLt .Info .Low = true)
    ∧ (∀ s : Severity, sevLe s s = true ∧ sevEq s s = true)
    ∧ (∀ a b : Severity, sevLe a b = true ∨ sevLe b a = true) := by
  refine ⟨by decide, fun s => by cases s <;> exact ⟨rfl, rfl⟩, fun a b => ?_⟩
  cases a <;> cases b <;> first | exact Or.inl rfl | exact Or.inr rfl

/-- C10: any `Set-Cookie` string containing `secure` anywhere
(case-insensitively) — even inside the cookie's name or value — receives
neither the missing-Secure-flag finding nor the prefix-related
missing-Secure finding, since both rules test for the substring over the
whole cookie string. -/
theorem C10_secure_substring_suppresses (cookie : String)
    (h : strContains (lowerStr cookie) "secure" = true) :
    ((Cookies.checkCookie cookie).all
        (fun i =>
          !(i == Cookies.missingSecureIssue (Cookies.extract_cookie_name cookie))
            && !(i == Cookies.prefixNoSecureIssue
                  (Cookies.extract_cookie_name cookie)))) = true := by
  unfold Cookies.checkCookie
  simp only [h, Bool.not_true, Bool.false_eq_true, if_false, List.nil_append,
    List.all_append, Bool.and_eq_true]
  refine ⟨⟨⟨?_, ?_⟩, ?_⟩, ?_⟩ <;>
    (repeat' split) <;>
    simp [Cookies.missingSecureIssue, Cookies.prefixNoSecureIssue,
      Cookies.missingHttpOnlySensitiveIssue, Cookies.missingHttpOnlyIssue,
      Cookies.sameSiteNoneIssue, Cookies.sameSiteMissingIssue,
      Cookies.longExpirationIssue, Cookies.hostDomainIssue,
      Cookies.hostPathIssue, SecurityIssue.mk.injEq]

/-- C10, witnessed at the cookie `securetoken=1`, whose name contains
`secure` although the cookie has no `Secure` attribute. -/
theorem C10_witness :
    strContains (lowerStr "securetoken=1") "secure" = true
    ∧ ((Cookies.checkCookie "securetoken=1").all
        (fun i =>
          !(i == Cookies.missingSecureIssue
              (Cookies.extract_cookie_name "securetoken=1"))
            && !(i == Cookies.prefixNoSecureIssue
                  (Cookies.extract_cookie_name "securetoken=1")))) = true :=
  ⟨by decide, C10_secure_substring_suppresses "securetoken=1" (by decide)⟩

end CSPy
